import Mathlib

/-!
Verification of the FootPath location-tracking engine.

This file gives a shallow embedding of the algorithmic core of the
FootPath repository and proves properties of it:

* `src/hooks/useLocationTracking.ts` — `flushPendingPoints`,
  `validatePosition`, `shouldUpdatePosition`, `cleanupOrphanedSessions`;
* `src/utils/explorationUtils.ts` — `calculateDistance`,
  `generateExploredAreas`;
* `src/utils/splineInterpolation.ts` — `interpolateSpline`,
  `optimizePoints`;
* `src/constants/tracking.ts` — the `TRACKING_CONFIG` constants.

Modelling conventions: JavaScript numbers appearing only as opaque data
(coordinates stored in the pending queue, timestamps) are modelled as `ℚ`
resp. `ℤ` milliseconds, which keeps those definitions executable; numbers
flowing through the trigonometric haversine formula are modelled as `ℝ`.
Asynchronous interleaving during a durable-store write is made explicit:
`flushPendingPoints` takes the list of points enqueued while the write was
in flight as an argument.
-/

namespace FootPath

/-! ## Constants (src/constants/tracking.ts, TRACKING_CONFIG) -/

namespace TrackingConfig

/-- MIN_DISTANCE: minimum recording distance in metres. -/
noncomputable def MIN_DISTANCE : ℝ := 10

/-- SESSION_TIMEOUT: session timeout in milliseconds (10 minutes). -/
def SESSION_TIMEOUT : ℚ := 10 * 60 * 1000

end TrackingConfig

/-! ## Pending-batch buffer (flushPendingPoints, useLocationTracking.ts lines 50-74)

`GeoPoint` is the record type of `src/types/GeoPoint.ts`: latitude,
longitude and a timestamp.  Here the numeric fields are only carried
around, never computed with, so they are modelled with `ℚ` (every IEEE
double is a rational) and the `Date` with integer milliseconds. -/

structure GeoPoint where
  lat : ℚ
  lng : ℚ
  timestampMs : ℤ
deriving DecidableEq, Repr

/-- State owned by the pending-batch buffer: the ref `pendingPointsRef`
and the React state `pendingCount`. -/
structure BufferState where
  pending : List GeoPoint
  pendingCount : ℕ
deriving DecidableEq, Repr

/-- One enqueue as performed by `handlePositionUpdate` (lines 176-177):
push the point and set the counter to the new queue length. -/
def enqueuePoint (s : BufferState) (p : GeoPoint) : BufferState :=
  ⟨s.pending ++ [p], (s.pending ++ [p]).length⟩

/-- Firestore `arrayUnion`: append each element that is not already
present, keeping existing order. -/
def arrayUnion (store : List GeoPoint) (xs : List GeoPoint) : List GeoPoint :=
  xs.foldl (fun acc x => if x ∈ acc then acc else acc ++ [x]) store

/-- Result of one call to `flushPendingPoints`: the buffer state after the
call, the session document's persisted point array, and whether a
durable-store write was attempted at all. -/
structure FlushResult where
  buffer : BufferState
  store : List GeoPoint
  storeWriteAttempted : Bool
deriving DecidableEq, Repr

/-- flushPendingPoints (useLocationTracking.ts lines 50-74).  If the queue
is empty the function returns at once (line 52), before any suspension
point, so nothing can interleave.  Otherwise it snapshots the queue
(line 55), awaits the `updateDoc` with `arrayUnion` of the snapshot
(lines 59-64) — `arrivals` are the points enqueued by
`handlePositionUpdate` while that write was in flight — and then either
assigns a fresh empty array to the queue and resets the counter to 0
(lines 67-68, the success case) or, when the write threw, only logs and
leaves the queue as it stands (lines 69-71). -/
def flushPendingPoints (s : BufferState) (store : List GeoPoint)
    (arrivals : List GeoPoint) (success : Bool) : FlushResult :=
  if s.pending.length = 0 then
    ⟨s, store, false⟩
  else
    let pointsToUpload := s.pending
    let midFlight := arrivals.foldl enqueuePoint s
    if success then
      ⟨⟨[], 0⟩, arrayUnion store pointsToUpload, true⟩
    else
      ⟨midFlight, store, true⟩

/-- Membership in an `arrayUnion` result is membership in either side. -/
theorem mem_arrayUnion (store xs : List GeoPoint) (p : GeoPoint) :
    p ∈ arrayUnion store xs ↔ p ∈ store ∨ p ∈ xs := by
  induction xs generalizing store with
  | nil => simp [arrayUnion]
  | cons x xs ih =>
    show p ∈ arrayUnion (if x ∈ store then store else store ++ [x]) xs ↔ _
    by_cases hx : x ∈ store
    · rw [if_pos hx, ih]
      constructor
      · rintro (h | h)
        · exact Or.inl h
        · exact Or.inr (List.mem_cons_of_mem _ h)
      · rintro (h | h)
        · exact Or.inl h
        · rcases List.mem_cons.mp h with rfl | h
          · exact Or.inl hx
          · exact Or.inr h
    · rw [if_neg hx, ih]
      simp only [List.mem_append, List.mem_singleton, List.mem_cons]
      tauto

/-! ## Orphaned-session cleanup (useLocationTracking.ts lines 287-363) -/

/-- TrackingSession (src/types/GeoPoint.ts): the fields the cleanup logic
reads or writes.  `startTimeMs` and `endTimeMs` are epoch milliseconds. -/
structure TrackingSession where
  id : ℕ
  startTimeMs : ℤ
  isActive : Bool
  endTimeMs : Option ℤ
deriving DecidableEq, Repr

/-- Expiry test from lines 316-318: minutes elapsed since `startTime`,
compared strictly against `SESSION_TIMEOUT / (60 * 1000)` minutes. -/
def sessionExpired (nowMs : ℤ) (s : TrackingSession) : Bool :=
  decide (TrackingConfig.SESSION_TIMEOUT / (60 * 1000) <
    ((nowMs - s.startTimeMs : ℤ) : ℚ) / (1000 * 60))

/-- cleanupOrphanedSessions, classification and force-close parts
(lines 303-336): partition the active sessions into expired ones —
re-written with `isActive := false`, `endTime := now` — and sessions
eligible for auto-resume (the code then adopts the first of the latter). -/
def cleanupOrphanedSessions (nowMs : ℤ) (sessions : List TrackingSession) :
    List TrackingSession × List TrackingSession :=
  let expiredSessions := sessions.filter (fun s => sessionExpired nowMs s)
  let autoResumeSessions := sessions.filter (fun s => !(sessionExpired nowMs s))
  (expiredSessions.map (fun s => { s with isActive := false, endTimeMs := some nowMs }),
    autoResumeSessions)

/-! ## Claims C1, C2, C3, C10 -/

/-- C1 (counterexample): the claim says a point enqueued while the store
write was in flight is still pending after a successful flush, with the
pending counter equal to the number of such points.  At the concrete
input below — queue holding `p1`, point `p2` arriving during the in-flight
write — the code clears the whole queue and zeroes the counter, so `p2`
is not pending afterwards and the counter is 0, not 1. -/
theorem flush_inflight_points_dropped :
    (flushPendingPoints ⟨[⟨0, 0, 0⟩], 1⟩ [] [⟨1, 1, 1000⟩] true).buffer.pending = []
    ∧ (flushPendingPoints ⟨[⟨0, 0, 0⟩], 1⟩ [] [⟨1, 1, 1000⟩] true).buffer.pendingCount = 0
    ∧ ¬ (⟨1, 1, 1000⟩ : GeoPoint) ∈
        (flushPendingPoints ⟨[⟨0, 0, 0⟩], 1⟩ [] [⟨1, 1, 1000⟩] true).buffer.pending := by
  refine ⟨rfl, rfl, ?_⟩
  simp [flushPendingPoints]

/-- C1 (amended): when a flush of a non-empty queue succeeds, the entire
in-memory queue is cleared and the pending counter reset to 0 — including
any points enqueued while the store write was in flight, which are
dropped — and exactly the snapshot taken at call time is united into the
durable store. -/
theorem flush_success_clears_entire_queue
    (s : BufferState) (store arrivals : List GeoPoint) (h : s.pending ≠ []) :
    (flushPendingPoints s store arrivals true).buffer.pending = []
    ∧ (flushPendingPoints s store arrivals true).buffer.pendingCount = 0
    ∧ (flushPendingPoints s store arrivals true).store = arrayUnion store s.pending := by
  have hlen : ¬ s.pending.length = 0 := by
    simpa [List.length_eq_zero] using h
  simp [flushPendingPoints, hlen]

/-- C1 witness: the amended theorem applied at a concrete non-empty
buffer. -/
theorem flush_success_clears_entire_queue_witness :
    ([⟨0, 0, 0⟩] : List GeoPoint) ≠ []
    ∧ (flushPendingPoints ⟨[⟨0, 0, 0⟩], 1⟩ [] [⟨1, 1, 1000⟩] true).buffer.pending = []
    ∧ (flushPendingPoints ⟨[⟨0, 0, 0⟩], 1⟩ [] [⟨1, 1, 1000⟩] true).buffer.pendingCount = 0
    ∧ (flushPendingPoints ⟨[⟨0, 0, 0⟩], 1⟩ [] [⟨1, 1, 1000⟩] true).store
        = arrayUnion [] [⟨0, 0, 0⟩] := by
  have h := flush_success_clears_entire_queue ⟨[⟨0, 0, 0⟩], 1⟩ [] [⟨1, 1, 1000⟩]
    (by decide)
  exact ⟨by decide, h.1, h.2.1, h.2.2⟩

/-- C3 (counterexample): the claim's closing clause says a flush never
discards a point that was not confirmed delivered.  At the concrete
input below — queue holding one point, a second point enqueued while the
successful store write was in flight — the code ends the flush with the
in-flight point neither in the durable store (only the call-time
snapshot was sent) nor in the pending queue (line 67 assigns a fresh
empty array): it is discarded undelivered. -/
theorem flush_discards_undelivered_arrival :
    ¬ (⟨2, 2, 2000⟩ : GeoPoint) ∈
        (flushPendingPoints ⟨[⟨0, 1, 0⟩], 1⟩ [] [⟨2, 2, 2000⟩] true).store
    ∧ ¬ (⟨2, 2, 2000⟩ : GeoPoint) ∈
        (flushPendingPoints ⟨[⟨0, 1, 0⟩], 1⟩ [] [⟨2, 2, 2000⟩] true).buffer.pending := by
  constructor
  · simp [flushPendingPoints, arrayUnion]
  · simp [flushPendingPoints]

/-- C3 (amended): when the durable-store write fails, the queue, the counter and the
store are exactly as before the call (stated with no concurrent arrivals),
so the next flush retries the same points; and the at-least-once
guarantee holds for the points the flush is responsible for — every
point already pending at call time is, after any flush, either in the
durable store or still in the pending queue.  The unrestricted clause is
false of the code: a point enqueued during an in-flight successful write
is discarded undelivered (see the counterexample above). -/
theorem flush_failure_preserves_queue :
    (∀ (s : BufferState) (store : List GeoPoint),
      (flushPendingPoints s store [] false).buffer = s
      ∧ (flushPendingPoints s store [] false).store = store)
    ∧ (∀ (s : BufferState) (store arrivals : List GeoPoint) (success : Bool)
        (p : GeoPoint), p ∈ s.pending →
        p ∈ (flushPendingPoints s store arrivals success).store
        ∨ p ∈ (flushPendingPoints s store arrivals success).buffer.pending) := by
  constructor
  · intro s store
    by_cases hlen : s.pending.length = 0
    · simp [flushPendingPoints, hlen]
    · simp [flushPendingPoints, hlen]
  · intro s store arrivals success p hp
    by_cases hlen : s.pending.length = 0
    · exact absurd (List.length_eq_zero.mp hlen ▸ hp) (List.not_mem_nil p)
    · cases success with
      | true =>
        left
        simp only [flushPendingPoints, hlen, if_neg, if_false, if_true]
        simpa [flushPendingPoints, hlen, mem_arrayUnion] using Or.inr hp
      | false =>
        right
        have hmid : ∀ (arr : List GeoPoint) (t : BufferState), p ∈ t.pending →
            p ∈ (arr.foldl enqueuePoint t).pending := by
          intro arr
          induction arr with
          | nil => intro t ht; exact ht
          | cons x xs ih =>
            intro t ht
            exact ih _ (by simp [enqueuePoint, ht])
        simpa [flushPendingPoints, hlen] using hmid arrivals s hp

/-- C3 witness: the theorem applied at a concrete buffer, discharging the
membership hypothesis. -/
theorem flush_failure_preserves_queue_witness :
    ((flushPendingPoints ⟨[⟨0, 0, 0⟩], 1⟩ [] [] false).buffer = ⟨[⟨0, 0, 0⟩], 1⟩
      ∧ (flushPendingPoints ⟨[⟨0, 0, 0⟩], 1⟩ [] [] false).store = [])
    ∧ ((⟨0, 0, 0⟩ : GeoPoint) ∈ ([⟨0, 0, 0⟩] : List GeoPoint)
      ∧ ((⟨0, 0, 0⟩ : GeoPoint) ∈
          (flushPendingPoints ⟨[⟨0, 0, 0⟩], 1⟩ [] [⟨1, 1, 1000⟩] false).store
        ∨ (⟨0, 0, 0⟩ : GeoPoint) ∈
          (flushPendingPoints ⟨[⟨0, 0, 0⟩], 1⟩ [] [⟨1, 1, 1000⟩] false).buffer.pending)) :=
  ⟨flush_failure_preserves_queue.1 ⟨[⟨0, 0, 0⟩], 1⟩ [],
    ⟨by decide,
      flush_failure_preserves_queue.2 ⟨[⟨0, 0, 0⟩], 1⟩ [] [⟨1, 1, 1000⟩] false
        ⟨0, 0, 0⟩ (by decide)⟩⟩

/-- C10: flushing an empty queue is a guarded no-op: no durable-store
write is attempted, the buffer (queue and counter) and the store are
returned unchanged. -/
theorem flush_empty_queue_noop
    (s : BufferState) (store arrivals : List GeoPoint) (success : Bool)
    (h : s.pending = []) :
    flushPendingPoints s store arrivals success = ⟨s, store, false⟩ := by
  have hlen : s.pending.length = 0 := by simp [h]
  simp [flushPendingPoints, hlen]

/-- C10 witness: the theorem applied at the concrete empty buffer. -/
theorem flush_empty_queue_noop_witness :
    (⟨[], 0⟩ : BufferState).pending = []
    ∧ flushPendingPoints ⟨[], 0⟩ [⟨0, 0, 0⟩] [⟨1, 1, 1000⟩] true
        = ⟨⟨[], 0⟩, [⟨0, 0, 0⟩], false⟩ :=
  ⟨rfl, flush_empty_queue_noop ⟨[], 0⟩ [⟨0, 0, 0⟩] [⟨1, 1, 1000⟩] true rfl⟩

/-- C2 (counterexample): the claim says a session whose elapsed time
equals the 10-minute threshold exactly is force-closed.  At the concrete
input — now = 600000 ms, session started at 0 ms, i.e. elapsed exactly
10 minutes — the code's strict `>` comparison classifies it for resume:
the expired list is empty and the session is in the auto-resume list,
still active. -/
theorem cleanup_exact_timeout_resumed :
    sessionExpired 600000 ⟨0, 0, true, none⟩ = false
    ∧ cleanupOrphanedSessions 600000 [⟨0, 0, true, none⟩]
        = ([], [⟨0, 0, true, none⟩]) := by
  have hexp : sessionExpired 600000 ⟨0, 0, true, none⟩ = false := by
    simp only [sessionExpired, decide_eq_false_iff_not, TrackingConfig.SESSION_TIMEOUT]
    norm_num
  exact ⟨hexp, by simp [cleanupOrphanedSessions, List.filter, hexp]⟩

/-- C2 (amended): a session is force-closed exactly when strictly more
than 10 minutes (600000 ms) have elapsed since its `startTime`; a session
whose elapsed time equals the threshold exactly is classified for resume,
not closed; and every force-closed session comes out with
`isActive = false` and `endTime = now`. -/
theorem cleanup_timeout_boundary :
    (∀ (nowMs : ℤ) (s : TrackingSession),
      sessionExpired nowMs s = true ↔ (600000 : ℤ) < nowMs - s.startTimeMs)
    ∧ (∀ (nowMs : ℤ) (s : TrackingSession), nowMs - s.startTimeMs = 600000 →
      cleanupOrphanedSessions nowMs [s] = ([], [s]))
    ∧ (∀ (nowMs : ℤ) (sessions : List TrackingSession) (t : TrackingSession),
      t ∈ (cleanupOrphanedSessions nowMs sessions).1 →
      t.isActive = false ∧ t.endTimeMs = some nowMs) := by
  have hchar : ∀ (nowMs : ℤ) (s : TrackingSession),
      sessionExpired nowMs s = true ↔ (600000 : ℤ) < nowMs - s.startTimeMs := by
    intro nowMs s
    rw [sessionExpired, decide_eq_true_eq, TrackingConfig.SESSION_TIMEOUT]
    rw [lt_div_iff₀ (by norm_num : (0 : ℚ) < 1000 * 60)]
    norm_num
    constructor <;> intro h <;> exact_mod_cast h
  refine ⟨hchar, ?_, ?_⟩
  · intro nowMs s h
    have hexp : sessionExpired nowMs s = false := by
      rw [← Bool.not_eq_true, hchar, h]
      norm_num
    simp [cleanupOrphanedSessions, hexp]
  · intro nowMs sessions t ht
    simp only [cleanupOrphanedSessions, List.mem_map] at ht
    obtain ⟨s, _, rfl⟩ := ht
    exact ⟨rfl, rfl⟩

/-- C2 witness: the amended theorem applied at concrete instants — a
session 600001 ms old is expired, one exactly 600000 ms old is resumed,
and a concrete force-closed session has `isActive = false` and its
`endTime` set. -/
theorem cleanup_timeout_boundary_witness :
    (sessionExpired 600001 ⟨0, 0, true, none⟩ = true ↔ (600000 : ℤ) < 600001 - 0)
    ∧ cleanupOrphanedSessions 600000 [⟨0, 0, true, none⟩]
        = ([], [⟨0, 0, true, none⟩])
    ∧ ((⟨0, 0, false, some 600001⟩ : TrackingSession) ∈
        (cleanupOrphanedSessions 600001 [⟨0, 0, true, none⟩]).1
      ∧ (⟨0, 0, false, some 600001⟩ : TrackingSession).isActive = false) := by
  have hexp : sessionExpired 600001 ⟨0, 0, true, none⟩ = true :=
    (cleanup_timeout_boundary.1 600001 ⟨0, 0, true, none⟩).mpr (by decide)
  have hmem : (⟨0, 0, false, some 600001⟩ : TrackingSession) ∈
      (cleanupOrphanedSessions 600001 [⟨0, 0, true, none⟩]).1 := by
    simp [cleanupOrphanedSessions, List.filter, hexp]
  refine ⟨cleanup_timeout_boundary.1 600001 ⟨0, 0, true, none⟩,
    cleanup_timeout_boundary.2.1 600000 ⟨0, 0, true, none⟩ (by decide), hmem, ?_⟩
  exact (cleanup_timeout_boundary.2.2 600001 [⟨0, 0, true, none⟩]
    ⟨0, 0, false, some 600001⟩ hmem).1

/-! ## Path smoothing (src/utils/splineInterpolation.ts)

Points here are `[number, number]` pairs of latitude and longitude,
modelled as `ℝ × ℝ`.  List indexing `points[i]` is modelled by
`List.getD i (0, 0)`; every index produced below is in bounds, so the
default is never reached. -/

/-- Indices visited by the thinning loop of `optimizePoints` (lines
57-59): `for (let i = step; i < points.length - 1; i += step)` visits
exactly the multiples of `step` in `[step, n - 2]`. -/
def strideIndices (n step : ℕ) : List ℕ :=
  (List.range n).filter (fun i => decide (step ≤ i ∧ i < n - 1 ∧ i % step = 0))

/-- optimizePoints (lines 47-67): inputs of at most 100 points are
returned unchanged; otherwise the first point, every
`step = ceil(n / 100)`-th point strictly between the first and last, and
the last point are kept.  `Math.ceil(n / 100)` is `(n + 99) / 100` in
natural-number arithmetic. -/
def optimizePoints (points : List (ℝ × ℝ)) : List (ℝ × ℝ) :=
  if points.length ≤ 100 then points
  else
    let step := (points.length + 99) / 100
    let optimized := points.getD 0 (0, 0) ::
      (strideIndices points.length step).map (fun i => points.getD i (0, 0))
    if 1 < points.length then optimized ++ [points.getD (points.length - 1) (0, 0)]
    else optimized

/-- Cubic Catmull-Rom basis from lines 23-35, applied to one coordinate. -/
noncomputable def catmullRom (p0 p1 p2 p3 t : ℝ) : ℝ :=
  let t2 := t * t
  let t3 := t2 * t
  0.5 * (2 * p1 + (-p0 + p2) * t + (2 * p0 - 5 * p1 + 4 * p2 - p3) * t2 +
    (-p0 + 3 * p1 - 3 * p2 + p3) * t3)

/-- Expansion of one segment `i` by `interpolateSpline` (lines 8-38):
the segment's start point `p1` followed by 4 interpolated points at
`t = j / 5`, `j = 1..4` (the loop `for (let j = 1; j < segments; j++)`
with `segments = 5`), with endpoint repetition for the virtual
neighbours `p0` and `p3` where no input neighbour exists. -/
noncomputable def splineSegment (points : List (ℝ × ℝ)) (i : ℕ) : List (ℝ × ℝ) :=
  let p0 := if 0 < i then points.getD (i - 1) (0, 0) else points.getD i (0, 0)
  let p1 := points.getD i (0, 0)
  let p2 := points.getD (i + 1) (0, 0)
  let p3 := if i < points.length - 2 then points.getD (i + 2) (0, 0)
    else points.getD (i + 1) (0, 0)
  p1 :: (List.range 4).map (fun j : ℕ =>
    let t : ℝ := ((j : ℝ) + 1) / 5
    (catmullRom p0.1 p1.1 p2.1 p3.1 t, catmullRom p0.2 p1.2 p2.2 p3.2 t))

/-- interpolateSpline (lines 2-44): lists of fewer than three points are
returned unchanged (lines 3-4); otherwise each of the `n - 1` segments
contributes its `splineSegment` expansion, and the last input point is
appended (line 42). -/
noncomputable def interpolateSpline (points : List (ℝ × ℝ)) : List (ℝ × ℝ) :=
  if points.length < 2 then points
  else if points.length = 2 then points
  else
    (List.range (points.length - 1)).flatMap (splineSegment points)
    ++ [points.getD (points.length - 1) (0, 0)]

/-- Each segment expands to exactly 5 points. -/
theorem splineSegment_length (points : List (ℝ × ℝ)) (i : ℕ) :
    (splineSegment points i).length = 5 := by
  simp only [splineSegment, List.length_cons, List.length_map, List.length_range]

/-! ## Claims C6, C7, C8 -/

/-- C6: evaluation of `optimizePoints` at a 200-point input.  The claim
(and the code's own comment, line 50) promises at most 100 output
points, but the result has 101: the first point, the 99 stride points
2, 4, ..., 198, and the last point. -/
theorem optimizePoints_exceeds_max_at_200 :
    (optimizePoints (List.replicate 200 ((0 : ℝ), (0 : ℝ)))).length = 101 := by
  have hlen : (List.replicate 200 ((0 : ℝ), (0 : ℝ))).length = 200 :=
    List.length_replicate 200 _
  rw [optimizePoints]
  rw [if_neg (by rw [hlen]; norm_num), if_pos (by rw [hlen]; norm_num)]
  rw [List.length_append, List.length_cons, List.length_map, hlen]
  have h99 : (strideIndices 200 ((200 + 99) / 100)).length = 99 := by decide
  rw [h99, List.length_singleton]

/-- C7 (counterexample): the claim says every input of n >= 2 points
yields 5 * (n - 1) + 1 output points, i.e. 6 for n = 2, but the code
returns two-point inputs unchanged (line 4), so the output has 2
points. -/
theorem interpolateSpline_two_points_counterexample :
    interpolateSpline [((0 : ℝ), (0 : ℝ)), ((1 : ℝ), (1 : ℝ))]
      = [((0 : ℝ), (0 : ℝ)), ((1 : ℝ), (1 : ℝ))]
    ∧ (interpolateSpline [((0 : ℝ), (0 : ℝ)), ((1 : ℝ), (1 : ℝ))]).length
      ≠ 5 * (([((0 : ℝ), (0 : ℝ)), ((1 : ℝ), (1 : ℝ))] : List (ℝ × ℝ)).length - 1) + 1 := by
  have h : interpolateSpline [((0 : ℝ), (0 : ℝ)), ((1 : ℝ), (1 : ℝ))]
      = [((0 : ℝ), (0 : ℝ)), ((1 : ℝ), (1 : ℝ))] := by
    rw [interpolateSpline]
    norm_num
  exact ⟨h, by rw [h]; norm_num⟩

/-- C7 (amended): for every input of n >= 3 points each of the n - 1
segments is expanded into 5 sub-points (the segment's start point plus 4
interpolated ones) and the final input point is appended, so the output
has exactly 5 * (n - 1) + 1 points; an input of exactly 2 points is
returned unchanged (so has 2 output points, not 6). -/
theorem interpolateSpline_length :
    (∀ points : List (ℝ × ℝ), 3 ≤ points.length →
      (interpolateSpline points).length = 5 * (points.length - 1) + 1)
    ∧ (∀ points : List (ℝ × ℝ), points.length = 2 →
      interpolateSpline points = points) := by
  constructor
  · intro points h3
    rw [interpolateSpline, if_neg (by omega), if_neg (by omega)]
    rw [List.length_append, List.length_flatMap]
    have hmap : List.map (List.length ∘ splineSegment points)
        (List.range (points.length - 1))
        = List.map (fun _ => 5) (List.range (points.length - 1)) :=
      List.map_congr_left (fun i _ => splineSegment_length points i)
    rw [hmap, List.map_const', List.sum_replicate, List.length_range]
    simp only [smul_eq_mul, List.length_singleton]
    omega
  · intro points h2
    rw [interpolateSpline, if_neg (by omega), if_pos h2]

/-- C7 witness: the amended theorem applied to a concrete 3-point list
(11 output points) and a concrete 2-point list (returned unchanged). -/
theorem interpolateSpline_length_witness :
    (3 ≤ ([((0 : ℝ), 0), (1, 1), (2, 0)] : List (ℝ × ℝ)).length
      ∧ (interpolateSpline [((0 : ℝ), 0), (1, 1), (2, 0)]).length
        = 5 * (([((0 : ℝ), 0), (1, 1), (2, 0)] : List (ℝ × ℝ)).length - 1) + 1)
    ∧ (([((3 : ℝ), 4), (5, 6)] : List (ℝ × ℝ)).length = 2
      ∧ interpolateSpline [((3 : ℝ), 4), (5, 6)] = [((3 : ℝ), 4), (5, 6)]) :=
  ⟨⟨by norm_num, interpolateSpline_length.1 [((0 : ℝ), 0), (1, 1), (2, 0)] (by norm_num)⟩,
    ⟨by norm_num, interpolateSpline_length.2 [((3 : ℝ), 4), (5, 6)] (by norm_num)⟩⟩

/-- First element of a non-empty list, via the `points[0]` indexing used
in the source. -/
theorem getD_zero_of_ne_nil {l : List (ℝ × ℝ)} (h : l ≠ []) :
    some (l.getD 0 (0, 0)) = l.head? := by
  cases l with
  | nil => exact absurd rfl h
  | cons a t => rfl

/-- Last element of a non-empty list, via the `points[points.length - 1]`
indexing used in the source. -/
theorem getD_last_of_ne_nil {l : List (ℝ × ℝ)} (h : l ≠ []) :
    some (l.getD (l.length - 1) (0, 0)) = l.getLast? := by
  have hlt : l.length - 1 < l.length := by
    cases l with
    | nil => exact absurd rfl h
    | cons a t => simp
  rw [List.getLast?_eq_get?, List.get?_eq_get hlt]
  show some ((l.get? (l.length - 1)).getD (0, 0)) = _
  rw [List.get?_eq_get hlt]
  rfl

/-- optimizePoints keeps the first point, keeps the last point, and never
returns the empty list for a non-empty input. -/
theorem optimizePoints_head_last (pts : List (ℝ × ℝ)) (h : pts ≠ []) :
    (optimizePoints pts).head? = pts.head?
    ∧ (optimizePoints pts).getLast? = pts.getLast?
    ∧ optimizePoints pts ≠ [] := by
  rw [optimizePoints]
  by_cases hle : pts.length ≤ 100
  · rw [if_pos hle]
    exact ⟨rfl, rfl, h⟩
  · rw [if_neg hle]
    have h1 : 1 < pts.length := by
      rcases Nat.lt_or_ge pts.length 2 with h2 | h2
      · omega
      · omega
    rw [if_pos h1]
    refine ⟨?_, ?_, ?_⟩
    · rw [List.cons_append, List.head?_cons, getD_zero_of_ne_nil h]
    · rw [List.getLast?_concat, getD_last_of_ne_nil h]
    · rw [List.cons_append]
      exact List.cons_ne_nil _ _

/-- interpolateSpline keeps the first point, keeps the last point, and
never returns the empty list for a non-empty input. -/
theorem interpolateSpline_head_last (pts : List (ℝ × ℝ)) (h : pts ≠ []) :
    (interpolateSpline pts).head? = pts.head?
    ∧ (interpolateSpline pts).getLast? = pts.getLast?
    ∧ interpolateSpline pts ≠ [] := by
  rw [interpolateSpline]
  by_cases h1 : pts.length < 2
  · rw [if_pos h1]; exact ⟨rfl, rfl, h⟩
  · rw [if_neg h1]
    by_cases h2 : pts.length = 2
    · rw [if_pos h2]; exact ⟨rfl, rfl, h⟩
    · rw [if_neg h2]
      obtain ⟨k, hk⟩ : ∃ k, pts.length - 1 = k + 1 := ⟨pts.length - 2, by omega⟩
      obtain ⟨tail, htail⟩ : ∃ tail, splineSegment pts 0 = pts.getD 0 (0, 0) :: tail :=
        ⟨_, rfl⟩
      refine ⟨?_, ?_, ?_⟩
      · rw [hk, List.range_succ_eq_map, List.flatMap_cons, htail, List.cons_append,
          List.cons_append, List.head?_cons, getD_zero_of_ne_nil h]
      · rw [List.getLast?_concat, getD_last_of_ne_nil h]
      · rw [hk, List.range_succ_eq_map, List.flatMap_cons, htail, List.cons_append,
          List.cons_append]
        exact List.cons_ne_nil _ _

/-- C8: for every input of at least two points, decimation followed by
smoothing preserves the first and the last point of the input. -/
theorem smoothing_preserves_endpoints (pts : List (ℝ × ℝ)) (h : 2 ≤ pts.length) :
    (interpolateSpline (optimizePoints pts)).head? = pts.head?
    ∧ (interpolateSpline (optimizePoints pts)).getLast? = pts.getLast? := by
  have hne : pts ≠ [] := by
    cases pts with
    | nil => simp at h
    | cons a t => exact List.cons_ne_nil a t
  obtain ⟨h1, h2, h3⟩ := optimizePoints_head_last pts hne
  obtain ⟨g1, g2, _⟩ := interpolateSpline_head_last (optimizePoints pts) h3
  exact ⟨g1.trans h1, g2.trans h2⟩

/-- C8 witness: the theorem applied to a concrete two-point list. -/
theorem smoothing_preserves_endpoints_witness :
    2 ≤ ([((0 : ℝ), 0), (1, 1)] : List (ℝ × ℝ)).length
    ∧ (interpolateSpline (optimizePoints [((0 : ℝ), 0), (1, 1)])).head?
        = ([((0 : ℝ), 0), (1, 1)] : List (ℝ × ℝ)).head?
    ∧ (interpolateSpline (optimizePoints [((0 : ℝ), 0), (1, 1)])).getLast?
        = ([((0 : ℝ), 0), (1, 1)] : List (ℝ × ℝ)).getLast? :=
  ⟨by norm_num,
    (smoothing_preserves_endpoints [((0 : ℝ), 0), (1, 1)] (by norm_num)).1,
    (smoothing_preserves_endpoints [((0 : ℝ), 0), (1, 1)] (by norm_num)).2⟩

/-! ## Haversine distance (calculateDistance, explorationUtils.ts lines 5-17)

Coordinates flowing through the trigonometric formula are modelled as
real numbers. -/

open Real in
/-- JavaScript `Math.atan2(y, x)` on real arguments. -/
noncomputable def atan2 (y x : ℝ) : ℝ :=
  if 0 < x then arctan (y / x)
  else if x < 0 ∧ 0 ≤ y then arctan (y / x) + π
  else if x < 0 ∧ y < 0 then arctan (y / x) - π
  else if x = 0 ∧ 0 < y then π / 2
  else if x = 0 ∧ y < 0 then -(π / 2)
  else 0

open Real in
/-- calculateDistance (explorationUtils.ts lines 5-17): haversine formula
with Earth radius R = 6371000 m, inputs in degrees, output in metres. -/
noncomputable def calculateDistance (lat1 lng1 lat2 lng2 : ℝ) : ℝ :=
  let R : ℝ := 6371000
  let dLat := (lat2 - lat1) * π / 180
  let dLng := (lng2 - lng1) * π / 180
  let a := sin (dLat / 2) * sin (dLat / 2) +
    cos (lat1 * π / 180) * cos (lat2 * π / 180) * sin (dLng / 2) * sin (dLng / 2)
  let c := 2 * atan2 (Real.sqrt a) (Real.sqrt (1 - a))
  R * c

/-- The distance from a point to itself is zero. -/
theorem calculateDistance_self (lat lng : ℝ) :
    calculateDistance lat lng lat lng = 0 := by
  simp only [calculateDistance, sub_self, zero_mul, zero_div, Real.sin_zero,
    mul_zero, zero_add, add_zero, Real.sqrt_zero, sub_zero, Real.sqrt_one]
  rw [atan2, if_pos one_pos]
  simp [Real.arctan_zero]

open Real in
/-- On the equator the haversine distance reduces to arc length: for
0 ≤ d < 180 degrees of longitude, the distance is R * (d * π / 180). -/
theorem calculateDistance_equator (d : ℝ) (h0 : 0 ≤ d) (h180 : d < 180) :
    calculateDistance 0 0 0 d = 6371000 * (d * π / 180) := by
  have hπ : (0 : ℝ) < π := Real.pi_pos
  have hx0 : 0 ≤ d * π / 360 := by positivity
  have hxlt : d * π / 360 < π / 2 := by
    rw [div_lt_div_iff₀ (by norm_num : (0:ℝ) < 360) (by norm_num : (0:ℝ) < 2)]
    nlinarith
  have hsin : 0 ≤ sin (d * π / 360) :=
    sin_nonneg_of_nonneg_of_le_pi hx0 (by nlinarith)
  have hcos : 0 < cos (d * π / 360) :=
    cos_pos_of_mem_Ioo ⟨by nlinarith, hxlt⟩
  simp only [calculateDistance]
  have e1 : ((0 : ℝ) - 0) * π / 180 / 2 = 0 := by ring
  have e2 : ((0 : ℝ)) * π / 180 = 0 := by ring
  have e3 : (d - 0) * π / 180 / 2 = d * π / 360 := by ring
  rw [e1, e2, e3, Real.sin_zero, Real.cos_zero]
  have e4 : (0 : ℝ) * 0 + 1 * 1 * sin (d * π / 360) * sin (d * π / 360)
      = sin (d * π / 360) ^ 2 := by ring
  rw [e4]
  have e5 : Real.sqrt (sin (d * π / 360) ^ 2) = sin (d * π / 360) := by
    rw [Real.sqrt_sq_eq_abs, abs_of_nonneg hsin]
  have e6 : (1 : ℝ) - sin (d * π / 360) ^ 2 = cos (d * π / 360) ^ 2 := by
    have := sin_sq_add_cos_sq (d * π / 360)
    linarith
  rw [e5, e6]
  have e7 : Real.sqrt (cos (d * π / 360) ^ 2) = cos (d * π / 360) := by
    rw [Real.sqrt_sq_eq_abs, abs_of_nonneg hcos.le]
  rw [e7, atan2, if_pos hcos, ← tan_eq_sin_div_cos,
    arctan_tan (by nlinarith) hxlt]
  ring

open Real in
/-- Between the two poles the haversine formula yields half the Earth's
circumference, R * π. -/
theorem calculateDistance_poles :
    calculateDistance 90 0 (-90) 0 = 6371000 * π := by
  simp only [calculateDistance]
  have e1 : ((-90 : ℝ) - 90) * π / 180 / 2 = -(π / 2) := by ring
  have e2 : ((0 : ℝ) - 0) * π / 180 / 2 = 0 := by ring
  have e3 : (90 : ℝ) * π / 180 = π / 2 := by ring
  have e4 : (-90 : ℝ) * π / 180 = -(π / 2) := by ring
  rw [e1, e2, e3, e4, Real.sin_neg, Real.sin_pi_div_two, Real.sin_zero,
    Real.cos_pi_div_two]
  have e5 : (-1 : ℝ) * -1 + 0 * cos (-(π / 2)) * 0 * 0 = 1 := by ring
  rw [e5, Real.sqrt_one, sub_self, Real.sqrt_zero]
  rw [atan2]
  rw [if_neg (by norm_num), if_neg (by norm_num), if_neg (by norm_num),
    if_pos (by norm_num)]
  ring

/-! ## Sample validation and distance gate (useLocationTracking.ts lines 77-127) -/

/-- Contents of `lastPositionRef`: the previously accepted position and
its timestamp in milliseconds. -/
structure LastPosition where
  lat : ℝ
  lng : ℝ
  timestampMs : ℝ

/-- Implied ground speed in km/h between the previously accepted position
and a candidate fix (lines 93-102): haversine distance in metres divided
by elapsed seconds, scaled by 3.6. -/
noncomputable def impliedSpeedKmh (prev : LastPosition) (lat lng nowMs : ℝ) : ℝ :=
  let distance := calculateDistance prev.lat prev.lng lat lng
  let timeDiff := (nowMs - prev.timestampMs) / 1000
  distance / timeDiff * 3.6

/-- validatePosition (lines 77-111): reject when accuracy exceeds 100 m,
when latitude or longitude is out of range, or — when a previous accepted
position exists — when the implied speed exceeds 20 km/h. -/
noncomputable def validatePosition (last : Option LastPosition)
    (accuracy lat lng nowMs : ℝ) : Bool :=
  if 100 < accuracy then false
  else if 90 < |lat| ∨ 180 < |lng| then false
  else
    match last with
    | none => true
    | some prev => if 20 < impliedSpeedKmh prev lat lng nowMs then false else true

/-- shouldUpdatePosition (lines 114-127): record unconditionally when no
last recorded point exists, otherwise exactly when the haversine distance
to it is at least `TRACKING_CONFIG.MIN_DISTANCE`. -/
noncomputable def shouldUpdatePosition (last : Option LastPosition)
    (newLat newLng : ℝ) : Bool :=
  match last with
  | none => true
  | some prev =>
    decide (TrackingConfig.MIN_DISTANCE ≤
      calculateDistance prev.lat prev.lng newLat newLng)

/-! ## Claims C4 and C9 -/

/-- C4: when a previous accepted position exists, (i) any accepted fix
has implied haversine speed at most 20 km/h, (ii) any fix whose implied
speed exceeds 20 km/h is rejected, and (iii) in particular a pair
implying exactly 25 km/h is rejected. -/
theorem validatePosition_speed_gate :
    (∀ (prev : LastPosition) (accuracy lat lng nowMs : ℝ),
      validatePosition (some prev) accuracy lat lng nowMs = true →
      impliedSpeedKmh prev lat lng nowMs ≤ 20)
    ∧ (∀ (prev : LastPosition) (accuracy lat lng nowMs : ℝ),
      20 < impliedSpeedKmh prev lat lng nowMs →
      validatePosition (some prev) accuracy lat lng nowMs = false)
    ∧ (∀ (prev : LastPosition) (accuracy lat lng nowMs : ℝ),
      impliedSpeedKmh prev lat lng nowMs = 25 →
      validatePosition (some prev) accuracy lat lng nowMs = false) := by
  have hB : ∀ (prev : LastPosition) (accuracy lat lng nowMs : ℝ),
      20 < impliedSpeedKmh prev lat lng nowMs →
      validatePosition (some prev) accuracy lat lng nowMs = false := by
    intro prev acc lat lng nowMs hs
    rw [validatePosition]
    by_cases h1 : 100 < acc
    · rw [if_pos h1]
    · rw [if_neg h1]
      by_cases h2 : 90 < |lat| ∨ 180 < |lng|
      · rw [if_pos h2]
      · rw [if_neg h2]
        show (if 20 < impliedSpeedKmh prev lat lng nowMs then false else true) = false
        rw [if_pos hs]
  refine ⟨?_, hB, ?_⟩
  · intro prev acc lat lng nowMs hv
    by_contra hgt
    push_neg at hgt
    rw [hB prev acc lat lng nowMs hgt] at hv
    exact Bool.false_ne_true hv
  · intro prev acc lat lng nowMs h25
    exact hB prev acc lat lng nowMs (by rw [h25]; norm_num)

/-- C4 witness: part (i) at a stationary fix (implied speed 0, accepted);
part (ii) at a pole-to-pole jump in 1000 s (implied speed 6371 * 3.6 * π
km/h, far above 20, rejected); part (iii) at an equatorial pair engineered
to imply exactly 25 km/h, rejected. -/
theorem validatePosition_speed_gate_witness :
    (validatePosition (some ⟨0, 0, 0⟩) 50 0 0 1000 = true
      ∧ impliedSpeedKmh ⟨0, 0, 0⟩ 0 0 1000 ≤ 20)
    ∧ (20 < impliedSpeedKmh ⟨90, 0, 0⟩ (-90) 0 1000000
      ∧ validatePosition (some ⟨90, 0, 0⟩) 50 (-90) 0 1000000 = false)
    ∧ (impliedSpeedKmh ⟨0, 0, 0⟩ 0 1 (5096800 * Real.pi) = 25
      ∧ validatePosition (some ⟨0, 0, 0⟩) 50 0 1 (5096800 * Real.pi) = false) := by
  have hzero : impliedSpeedKmh ⟨0, 0, 0⟩ 0 0 1000 = 0 := by
    simp [impliedSpeedKmh, calculateDistance_self]
  have hacc : validatePosition (some ⟨0, 0, 0⟩) 50 0 0 1000 = true := by
    rw [validatePosition, if_neg (by norm_num), if_neg (by norm_num)]
    show (if 20 < impliedSpeedKmh ⟨0, 0, 0⟩ 0 0 1000 then false else true) = true
    rw [if_neg (by rw [hzero]; norm_num)]
  have hfast : 20 < impliedSpeedKmh ⟨90, 0, 0⟩ (-90) 0 1000000 := by
    have : impliedSpeedKmh ⟨90, 0, 0⟩ (-90) 0 1000000
        = 6371000 * Real.pi / 1000 * 3.6 := by
      simp only [impliedSpeedKmh]
      rw [calculateDistance_poles]
      norm_num
    rw [this]
    nlinarith [Real.pi_gt_three]
  have h25 : impliedSpeedKmh ⟨0, 0, 0⟩ 0 1 (5096800 * Real.pi) = 25 := by
    have hd : calculateDistance 0 0 0 1 = 6371000 * (1 * Real.pi / 180) :=
      calculateDistance_equator 1 (by norm_num) (by norm_num)
    simp only [impliedSpeedKmh, hd]
    have hπ : Real.pi ≠ 0 := Real.pi_ne_zero
    field_simp
    ring
  refine ⟨⟨hacc, validatePosition_speed_gate.1 ⟨0, 0, 0⟩ 50 0 0 1000 hacc⟩,
    ⟨hfast, validatePosition_speed_gate.2.1 ⟨90, 0, 0⟩ 50 (-90) 0 1000000 hfast⟩,
    ⟨h25, validatePosition_speed_gate.2.2 ⟨0, 0, 0⟩ 50 0 1 (5096800 * Real.pi) h25⟩⟩

/-- C9: the distance gate records unconditionally when there is no last
recorded point; otherwise it records exactly when the haversine distance
reaches `MIN_DISTANCE` = 10 m; in particular a candidate at the exact
coordinates of the last recorded point (distance 0) is rejected. -/
theorem shouldUpdatePosition_distance_gate :
    TrackingConfig.MIN_DISTANCE = 10
    ∧ (∀ lat lng : ℝ, shouldUpdatePosition none lat lng = true)
    ∧ (∀ (prev : LastPosition) (lat lng : ℝ),
      shouldUpdatePosition (some prev) lat lng = true ↔
        (10 : ℝ) ≤ calculateDistance prev.lat prev.lng lat lng)
    ∧ (∀ prev : LastPosition,
      shouldUpdatePosition (some prev) prev.lat prev.lng = false) := by
  have hmin : TrackingConfig.MIN_DISTANCE = 10 := rfl
  refine ⟨hmin, fun lat lng => rfl, ?_, ?_⟩
  · intro prev lat lng
    simp [shouldUpdatePosition, hmin]
  · intro prev
    simp [shouldUpdatePosition, hmin, calculateDistance_self]

/-! ## Explored-area generation (generateExploredAreas, explorationUtils.ts lines 20-48) -/

/-- A raw track point as consumed by the exploration index, with
real-valued coordinates (they flow into `calculateDistance`). -/
structure GeoPointR where
  lat : ℝ
  lng : ℝ
  timestampMs : ℝ

/-- ExploredArea (src/types/ExploredArea.ts): a circle of `radius` metres
centred on a visited point. -/
structure ExploredArea where
  lat : ℝ
  lng : ℝ
  radius : ℝ
  timestampMs : ℝ
  userId : String

/-- Body of the `points.forEach` loop (lines 28-45): insert a new circle
for the point unless some existing area's centre is strictly closer than
`minDistance = explorationRadius * 0.3`. -/
noncomputable def addPointToAreas (explorationRadius : ℝ) (userId : String)
    (areas : List ExploredArea) (point : GeoPointR) : List ExploredArea :=
  let minDistance := explorationRadius * 0.3
  let hasNearbyArea := areas.any (fun area =>
    decide (calculateDistance area.lat area.lng point.lat point.lng < minDistance))
  if hasNearbyArea then areas
  else areas ++ [⟨point.lat, point.lng, explorationRadius, point.timestampMs, userId⟩]

/-- generateExploredAreas (lines 20-48): fold the loop body over the
track points, starting from the empty set of areas.  The source's
default `explorationRadius` is 25. -/
noncomputable def generateExploredAreas (points : List GeoPointR)
    (userId : String) (explorationRadius : ℝ) : List ExploredArea :=
  points.foldl (addPointToAreas explorationRadius userId) []

/-- When every existing centre is at least the dedup threshold away, the
point is inserted as a new circle. -/
theorem addPointToAreas_insert (r : ℝ) (u : String) (areas : List ExploredArea)
    (p : GeoPointR)
    (h : ∀ a ∈ areas, r * 0.3 ≤ calculateDistance a.lat a.lng p.lat p.lng) :
    addPointToAreas r u areas p
      = areas ++ [⟨p.lat, p.lng, r, p.timestampMs, u⟩] := by
  have hany : (areas.any (fun area =>
      decide (calculateDistance area.lat area.lng p.lat p.lng < r * 0.3))) = false := by
    rw [List.any_eq_false]
    intro a ha
    simp only [decide_eq_true_eq]
    exact not_lt.mpr (h a ha)
  simp only [addPointToAreas, hany, Bool.false_eq_true, if_false]

/-- When some existing centre is strictly within the dedup threshold, the
point is discarded. -/
theorem addPointToAreas_skip (r : ℝ) (u : String) (areas : List ExploredArea)
    (p : GeoPointR)
    (h : ∃ a ∈ areas, calculateDistance a.lat a.lng p.lat p.lng < r * 0.3) :
    addPointToAreas r u areas p = areas := by
  obtain ⟨a, ha, hlt⟩ := h
  have hany : (areas.any (fun area =>
      decide (calculateDistance area.lat area.lng p.lat p.lng < r * 0.3))) = true :=
    List.any_eq_true.mpr ⟨a, ha, decide_eq_true hlt⟩
  simp only [addPointToAreas, hany, if_true]

/-- The loop body preserves the pairwise separation invariant. -/
theorem addPointToAreas_pairwise (r : ℝ) (u : String) (areas : List ExploredArea)
    (p : GeoPointR)
    (h : areas.Pairwise
      (fun a b => r * 0.3 ≤ calculateDistance a.lat a.lng b.lat b.lng)) :
    (addPointToAreas r u areas p).Pairwise
      (fun a b => r * 0.3 ≤ calculateDistance a.lat a.lng b.lat b.lng) := by
  by_cases hany : (areas.any (fun area =>
      decide (calculateDistance area.lat area.lng p.lat p.lng < r * 0.3))) = true
  · simpa only [addPointToAreas, hany, if_true] using h
  · have hfalse : (areas.any (fun area =>
        decide (calculateDistance area.lat area.lng p.lat p.lng < r * 0.3))) = false := by
      rwa [← Bool.not_eq_true]
    have hall : ∀ a ∈ areas, r * 0.3 ≤ calculateDistance a.lat a.lng p.lat p.lng := by
      intro a ha
      have hna := List.any_eq_false.mp hfalse a ha
      simp only [decide_eq_true_eq] at hna
      exact not_lt.mp hna
    rw [addPointToAreas_insert r u areas p hall, List.pairwise_append]
    refine ⟨h, List.pairwise_singleton _ _, ?_⟩
    intro a ha b hb
    rw [List.mem_singleton] at hb
    subst hb
    exact hall a ha

/-! ## Claim C5 -/

/-- C5: (i) every generated area set is pairwise separated by at least
0.3 times the exploration radius; (ii) a point all of whose distances to
existing centres reach the threshold is inserted; (iii) a point strictly
within the threshold of some centre is discarded; (iv) two equatorial
points about 3 m apart (under the 7.5 m threshold at radius 25) yield one
area; (v) two equatorial points about 50 m apart yield two. -/
theorem generateExploredAreas_dedup :
    (∀ (points : List GeoPointR) (userId : String) (explorationRadius : ℝ),
      (generateExploredAreas points userId explorationRadius).Pairwise
        (fun a b => explorationRadius * 0.3 ≤ calculateDistance a.lat a.lng b.lat b.lng))
    ∧ (∀ (r : ℝ) (u : String) (areas : List ExploredArea) (p : GeoPointR),
      (∀ a ∈ areas, r * 0.3 ≤ calculateDistance a.lat a.lng p.lat p.lng) →
      addPointToAreas r u areas p = areas ++ [⟨p.lat, p.lng, r, p.timestampMs, u⟩])
    ∧ (∀ (r : ℝ) (u : String) (areas : List ExploredArea) (p : GeoPointR),
      (∃ a ∈ areas, calculateDistance a.lat a.lng p.lat p.lng < r * 0.3) →
      addPointToAreas r u areas p = areas)
    ∧ (generateExploredAreas [⟨0, 0, 0⟩, ⟨0, 27 / 1000000, 0⟩] "u" 25).length = 1
    ∧ (generateExploredAreas [⟨0, 0, 0⟩, ⟨0, 45 / 100000, 0⟩] "u" 25).length = 2 := by
  have hd3 : calculateDistance 0 0 0 (27 / 1000000) < 25 * 0.3 := by
    rw [calculateDistance_equator (27 / 1000000) (by norm_num) (by norm_num)]
    nlinarith [Real.pi_lt_315]
  have hd50 : (25 : ℝ) * 0.3 ≤ calculateDistance 0 0 0 (45 / 100000) := by
    rw [calculateDistance_equator (45 / 100000) (by norm_num) (by norm_num)]
    nlinarith [Real.pi_gt_three]
  have h1 : addPointToAreas 25 "u" [] ⟨0, 0, 0⟩ = [⟨0, 0, 25, 0, "u"⟩] := by
    rw [addPointToAreas_insert 25 "u" [] ⟨0, 0, 0⟩ (by simp)]
    rfl
  refine ⟨?_, addPointToAreas_insert, addPointToAreas_skip, ?_, ?_⟩
  · intro pts u r
    rw [generateExploredAreas]
    have hfold : ∀ acc : List ExploredArea,
        acc.Pairwise (fun a b => r * 0.3 ≤ calculateDistance a.lat a.lng b.lat b.lng) →
        (pts.foldl (addPointToAreas r u) acc).Pairwise
          (fun a b => r * 0.3 ≤ calculateDistance a.lat a.lng b.lat b.lng) := by
      induction pts with
      | nil => intro acc h; simpa using h
      | cons p ps ih =>
        intro acc h
        rw [List.foldl_cons]
        exact ih _ (addPointToAreas_pairwise r u acc p h)
    exact hfold [] List.Pairwise.nil
  · have h2 : addPointToAreas 25 "u" [⟨0, 0, 25, 0, "u"⟩] ⟨0, 27 / 1000000, 0⟩
        = [⟨0, 0, 25, 0, "u"⟩] :=
      addPointToAreas_skip 25 "u" _ _
        ⟨⟨0, 0, 25, 0, "u"⟩, List.mem_singleton.mpr rfl, hd3⟩
    rw [generateExploredAreas, List.foldl_cons, List.foldl_cons, List.foldl_nil,
      h1, h2]
    rfl
  · have h2 : addPointToAreas 25 "u" [⟨0, 0, 25, 0, "u"⟩] ⟨0, 45 / 100000, 0⟩
        = [⟨0, 0, 25, 0, "u"⟩] ++ [⟨0, 45 / 100000, 25, 0, "u"⟩] :=
      addPointToAreas_insert 25 "u" _ _ (by
        intro a ha
        rw [List.mem_singleton] at ha
        subst ha
        exact hd50)
    rw [generateExploredAreas, List.foldl_cons, List.foldl_cons, List.foldl_nil,
      h1, h2]
    rfl

/-- C5 witness: the insertion branch applied at the empty area set, and
the discard branch applied at a duplicate of an existing centre. -/
theorem generateExploredAreas_dedup_witness :
    ((∀ a ∈ ([] : List ExploredArea),
        (25 : ℝ) * 0.3 ≤ calculateDistance a.lat a.lng 0 0)
      ∧ addPointToAreas 25 "u" [] ⟨0, 0, 0⟩ = [] ++ [⟨0, 0, 25, 0, "u"⟩])
    ∧ ((∃ a ∈ [(⟨0, 0, 25, 0, "u"⟩ : ExploredArea)],
        calculateDistance a.lat a.lng 0 0 < 25 * 0.3)
      ∧ addPointToAreas 25 "u" [⟨0, 0, 25, 0, "u"⟩] ⟨0, 0, 0⟩
          = [⟨0, 0, 25, 0, "u"⟩]) := by
  have hex : ∃ a ∈ [(⟨0, 0, 25, 0, "u"⟩ : ExploredArea)],
      calculateDistance a.lat a.lng 0 0 < 25 * 0.3 :=
    ⟨⟨0, 0, 25, 0, "u"⟩, List.mem_singleton.mpr rfl, by
      show calculateDistance 0 0 0 0 < 25 * 0.3
      rw [calculateDistance_self]
      norm_num⟩
  exact ⟨⟨by simp, generateExploredAreas_dedup.2.1 25 "u" [] ⟨0, 0, 0⟩ (by simp)⟩,
    hex, generateExploredAreas_dedup.2.2.1 25 "u" [⟨0, 0, 25, 0, "u"⟩] ⟨0, 0, 0⟩ hex⟩

end FootPath
